import Mathlib

/-!
Shallow embedding of the xprezzo-session middleware (src/index.js) and of the
spec-level contracts of its collaborators, together with proofs of the
specification claims.  Pure functions of the source become Lean functions;
the per-request mutable closure state (`originalId`, `originalHash`,
`savedHash`, `touched`, `ended`, `req.sessionID`, `req.session`) becomes an
explicit state record threaded through step functions, and side effects
(store calls, underlying response writes) become an explicit effect trace.
-/

namespace XprezzoSession

/-- A JavaScript value, as far as the middleware inspects one: the code only
ever distinguishes `undefined`, `null`, booleans, numbers, strings and
functions (via `typeof`), and compares values with strict equality. -/
inductive JVal where
  | jundef
  | jnull
  | jbool (b : Bool)
  | jnum (n : Int)
  | jstr (s : String)
  | jfun
deriving Repr, DecidableEq

namespace JVal

/-- JavaScript truthiness for the values above: `undefined`, `null`, `false`,
`0` and `""` are falsy, everything else is truthy. -/
def truthy : JVal → Bool
  | jundef => false
  | jnull => false
  | jbool b => b
  | jnum n => n != 0
  | jstr s => s ≠ ""
  | jfun => true

/-- `typeof v === 'string'`. -/
def isString : JVal → Bool
  | jstr _ => true
  | _ => false

/-- `typeof v === 'function'`. -/
def isFunction : JVal → Bool
  | jfun => true
  | _ => false

/-- `v == null` (loose equality: true exactly for `null` and `undefined`). -/
def looseNull : JVal → Bool
  | jundef => true
  | jnull => true
  | _ => false

end JVal

/-- A `String | undefined` JavaScript value seen as a `JVal`
(`none` is `undefined`). -/
def optStr : Option String → JVal
  | none => JVal.jundef
  | some s => JVal.jstr s

/-- JavaScript truthiness of a `String | undefined` value (`undefined` and
`""` are falsy). -/
def optStrTruthy : Option String → Bool
  | none => false
  | some s => s ≠ ""

/-- Cookie Descriptor: the attributes of `./session/cookie` that the
middleware in src/index.js reads.  Modelled from the spec: the cookie file
itself is not under src/; §2 and §3 of the spec describe it as an attribute
bag with path, expiry (nullable = session-length), secure and max-age. -/
structure Cookie where
  path : String
  expires : Option Int
  maxAge : Option Int
  secure : Bool
deriving Repr, DecidableEq

/-- Session Entity: identifier plus application data, plus the embedded
Cookie Descriptor.  Modelled from the spec: `./session/session` is not under
src/; §3 describes a mapping of application keys to values, a reserved
`cookie` attribute, and a bound identifier.  Application data is kept as an
insertion-ordered association list, matching JSON object key order. -/
structure Session where
  id : String
  cookie : Cookie
  data : List (String × JVal)
deriving Repr, DecidableEq

/-- Serialization of one JSON scalar value, a model of the branches
`JSON.stringify` takes on the leaf values of the session object. -/
def JVal.stringify : JVal → String
  | JVal.jundef => "undefined"
  | JVal.jnull => "null"
  | JVal.jbool b => if b then "true" else "false"
  | JVal.jnum n => toString n
  | JVal.jstr s => "\"" ++ s ++ "\""
  | JVal.jfun => "function"

/-- Serialization of a flat JSON object (ordered key/value list), a model of
`JSON.stringify` on the session object after the replacer has been applied. -/
def stringifyObj (fields : List (String × JVal)) : String :=
  "\x7b" ++ String.intercalate ","
    (fields.map (fun kv => "\"" ++ kv.1 ++ "\":" ++ kv.2.stringify)) ++ "\x7d"

/-- `hash(sess)` from src/index.js, lines 136-152, over an explicit object:
`JSON.stringify` runs with a replacer that drops the top-level `cookie` key
(`this === sess && key === 'cookie'`), and the resulting string is digested.
The digest (`crypto.createHash('sha1')...`) is an external primitive and is
kept as a parameter `digest`; every claim about `hash` is proved for an
arbitrary digest function. -/
def hashObj (digest : String → String) (sess : List (String × JVal)) : String :=
  digest (stringifyObj (sess.filter (fun kv => kv.1 ≠ "cookie")))

/-- The JSON-visible fields of a Session Entity: the reserved `cookie`
attribute followed by the application data, in object key order.  The cookie
serializes to some value; since `hash` drops it, it is rendered as an opaque
string leaf. -/
def Session.fields (sess : Session) : List (String × JVal) :=
  ("cookie", JVal.jstr (toString (repr sess.cookie))) :: sess.data

/-- `hash(sess)` applied to a Session Entity. -/
def hashSession (digest : String → String) (sess : Session) : String :=
  hashObj digest sess.fields

/-! ## Signature utilities

`signature.sign` / `signature.unsign` come from xprezzo-cookie-parser, an
external collaborator; only their contract is specified (§4.3): a keyed MAC
appended after a `.` separator, with `unsign` returning the payload when the
MAC verifies and `false` otherwise.  The MAC itself is an arbitrary
parameter `mac`. -/

/-- `signature.sign(val, secret)`: the value followed by `.` and its MAC.
Modelled from the spec: the signing primitive is an external collaborator
specified only by its §4.3 contract. -/
def sign (mac : String → String → String) (val secret : String) : String :=
  val ++ "." ++ mac val secret

/-- The payload of a signed value: the characters before the final `.`
separator (`val.slice(0, val.lastIndexOf('.'))` in the primitive). -/
def payloadOf (input : String) : String :=
  String.mk (((input.data.reverse.dropWhile (fun c => c ≠ '.')).drop 1).reverse)

/-- `signature.unsign(input, secret)`: re-sign the payload and compare;
return the payload on success and `false` (here `none`) on mismatch.
Modelled from the spec: external collaborator, §4.3 contract. -/
def unsign (mac : String → String → String) (input secret : String) :
    Option String :=
  let str := payloadOf input
  if sign mac str secret = input then some str else none

/-- `unsigncookie(val, secrets)` from src/index.js, lines 213-223: try each
secret in order, return the first successful `unsign` result, else `false`
(here `none`). -/
def unsigncookie (mac : String → String → String) (val : String)
    (secrets : List String) : Option String :=
  match secrets with
  | [] => none
  | secret :: rest =>
    match unsign mac val secret with
    | some result => some result
    | none => unsigncookie mac val rest

/-! ## Configuration and setup-time validation (module.exports, lines 242-332) -/

/-- JavaScript `a || b` for `String | undefined` values (`undefined` and `""`
fall through to the default). -/
def jsOrStr (a : Option String) (b : String) : String :=
  match a with
  | some s => if s = "" then b else s
  | none => b

/-- The `secret` option as supplied: absent, a single string, or an array of
strings. -/
inductive SecretOpt where
  | absent
  | str (s : String)
  | arr (l : List String)
deriving Repr, DecidableEq

/-- JavaScript truthiness of the `secret` option (`undefined` and `""` are
falsy; any array is truthy). -/
def SecretOpt.truthy : SecretOpt → Bool
  | SecretOpt.absent => false
  | SecretOpt.str s => s ≠ ""
  | SecretOpt.arr _ => true

/-- The list of secrets a `secret` option denotes. -/
def SecretOpt.toList : SecretOpt → List String
  | SecretOpt.absent => []
  | SecretOpt.str s => [s]
  | SecretOpt.arr l => l

/-- The `cookie` option bag passed to the middleware factory. -/
structure CookieOpts where
  path : Option String
  secure : JVal
  expires : Option Int
  maxAge : Option Int
deriving Repr, DecidableEq

/-- The options object accepted by the middleware factory
(src/index.js lines 242-270). -/
structure Opts where
  cookie : CookieOpts
  genid : JVal
  name : Option String
  key : Option String
  proxy : Option Bool
  resave : Option Bool
  rolling : JVal
  saveUninitialized : Option Bool
  secret : SecretOpt
  unset : JVal
  storeProvidesTouch : Bool
deriving Repr, DecidableEq

/-- The validated configuration captured by the middleware closure. -/
structure Config where
  cookie : CookieOpts
  name : String
  proxy : Option Bool
  resave : Bool
  rolling : Bool
  saveUninitialized : Bool
  unsetDestroy : Bool
  secretCfg : SecretOpt
  storeImplementsTouch : Bool
deriving Repr, DecidableEq

/-- The factory `module.exports = (options) => ...` up to the point the
per-request handler is returned (src/index.js lines 242-332): option
defaulting and the three `throw new TypeError` validations, in source order.
A thrown `TypeError` is `Except.error` with its message.  A missing secret
does not throw here: the source only emits a deprecation notice
(line 301-303). -/
def setup (opts : Opts) : Except String Config :=
  let generateIdVal := if opts.genid.truthy then opts.genid else JVal.jfun
  if ¬ generateIdVal.isFunction then
    Except.error "genid option must be a function"
  else if opts.unset.truthy ∧ opts.unset ≠ JVal.jstr "destroy" ∧
      opts.unset ≠ JVal.jstr "keep" then
    Except.error "unset option must be \"destroy\" or \"keep\""
  else
    match opts.secret with
    | SecretOpt.arr [] =>
      Except.error "secret option array must contain one or more strings"
    | s =>
      Except.ok
        { cookie := opts.cookie
          name := jsOrStr opts.name (jsOrStr opts.key "connect.sid")
          proxy := opts.proxy
          resave := opts.resave.getD true
          rolling := opts.rolling.truthy
          saveUninitialized := opts.saveUninitialized.getD true
          unsetDestroy := opts.unset = JVal.jstr "destroy"
          secretCfg := if s.truthy then SecretOpt.arr s.toList else s
          storeImplementsTouch := opts.storeProvidesTouch }

/-! ## Per-request state -/

/-- The request-derived inputs the middleware reads. -/
structure ReqInfo where
  session : Option Session
  pathname : Option String
  headerCookies : Option (List (String × String))
  signedCookies : Option (List (String × String))
  cookies : Option (List (String × String))
  reqSecret : Option String
  connEncrypted : Bool
  reqSecure : Bool
  xForwardedProto : Option String
  now : Int
deriving Repr, DecidableEq

/-- The mutable per-request state held by the middleware closure:
`req.sessionID`, `req.session`, and the closure variables `cookieId`,
`originalId`, `originalHash`, `savedHash`, `touched`
(src/index.js lines 363-372). -/
structure ReqState where
  cookieId : JVal
  sessionID : JVal
  session : Option Session
  originalId : JVal
  originalHash : Option String
  savedHash : Option String
  touched : Bool
deriving Repr, DecidableEq

/-- The middleware-entry value of the per-request state: closure variables
start `undefined`, `touched` starts `false`, `req.session` is whatever the
request already carries. -/
def initialState (req : ReqInfo) : ReqState :=
  { cookieId := JVal.jundef
    sessionID := JVal.jundef
    session := req.session
    originalId := JVal.jundef
    originalHash := none
    savedHash := none
    touched := false }

/-- The string carried by a `JVal`, for call sites the source only reaches
with a string value. -/
def strOfJVal : JVal → String
  | JVal.jstr s => s
  | _ => ""

/-! ## Policy predicates (src/index.js lines 574-623) -/

/-- `isModified(sess)` (lines 575-577): identifier changed since baseline or
fingerprint changed since baseline. -/
def isModified (digest : String → String) (st : ReqState) (sess : Session) :
    Bool :=
  st.originalId ≠ JVal.jstr sess.id ∨
    st.originalHash ≠ some (hashSession digest sess)

/-- `isSaved(sess)` (lines 580-582): identifier unchanged and fingerprint
equal to the saved baseline. -/
def isSaved (digest : String → String) (st : ReqState) (sess : Session) :
    Bool :=
  st.originalId = JVal.jstr sess.id ∧
    st.savedHash = some (hashSession digest sess)

/-- `shouldDestroy(req)` (lines 585-587). -/
def shouldDestroy (cfg : Config) (st : ReqState) : Bool :=
  st.sessionID.truthy ∧ cfg.unsetDestroy ∧ st.session.isNone

/-- `shouldSave(req)` (lines 590-600).  The source dereferences
`req.session`, so the session is an explicit argument here, as at every call
site it is known to exist. -/
def shouldSave (digest : String → String) (cfg : Config) (st : ReqState)
    (sess : Session) : Bool :=
  if ¬ st.sessionID.isString then false
  else if ¬ cfg.saveUninitialized ∧ st.cookieId ≠ st.sessionID then
    isModified digest st sess
  else
    ¬ isSaved digest st sess

/-- `shouldTouch(req)` (lines 603-611). -/
def shouldTouch (digest : String → String) (cfg : Config) (st : ReqState)
    (sess : Session) : Bool :=
  if ¬ st.sessionID.isString then false
  else
    st.cookieId = st.sessionID ∧ ¬ shouldSave digest cfg st sess

/-- `shouldSetCookie(req)` (lines 614-623). -/
def shouldSetCookie (digest : String → String) (cfg : Config) (st : ReqState)
    (sess : Session) : Bool :=
  if ¬ st.sessionID.isString then false
  else if st.cookieId ≠ st.sessionID then
    cfg.saveUninitialized ∨ isModified digest st sess
  else
    cfg.rolling ∨ (sess.cookie.expires ≠ none ∧ isModified digest st sess)

/-! ## Effects

Store calls and underlying transport calls are recorded as an explicit
trace. -/

/-- An observable side effect of the middleware. -/
inductive Effect where
  | wrapResponse
  | storeGet (id : String)
  | storeSet (id : String)
  | storeTouch (id : JVal)
  | storeDestroy (id : JVal)
  | sessionTouched
  | writeUnderlying
  | endUnderlying
deriving Repr, DecidableEq

/-- Whether an effect is a store write in the sense of claim C5: a `set` or
a `touch` call on the store. -/
def Effect.isStoreWrite : Effect → Bool
  | Effect.storeSet _ => true
  | Effect.storeTouch _ => true
  | _ => false

/-- Whether an effect is any store operation issued from the response
finalizer (`destroy`, `set` or `touch`). -/
def Effect.isStoreOp : Effect → Bool
  | Effect.storeSet _ => true
  | Effect.storeTouch _ => true
  | Effect.storeDestroy _ => true
  | _ => false

/-- Whether an effect is a call of the underlying (unwrapped) `res.end`. -/
def Effect.isEndCall : Effect → Bool
  | Effect.endUnderlying => true
  | _ => false

/-! ## Lifecycle operations -/

/-- `issecure(req, trustProxy)` (src/index.js lines 162-186). -/
def issecure (req : ReqInfo) (trustProxy : Option Bool) : Bool :=
  if req.connEncrypted then true
  else if trustProxy = some false then false
  else if trustProxy ≠ some true then req.reqSecure
  else
    let header := req.xForwardedProto.getD ""
    let proto := ((header.splitOn ",").headD "").toLower.trim
    proto = "https"

/-- `new Cookie(cookieOptions)`.  Modelled from the spec: `./session/cookie`
is not under src/; §3 gives path (default `/`), nullable expiry, max-age and
a secure flag (an `'auto'` secure option starts truthy and is overwritten by
`store.generate`). -/
def newCookie (co : CookieOpts) : Cookie :=
  { path := jsOrStr co.path "/"
    expires := co.expires
    maxAge := co.maxAge
    secure := co.secure.truthy }

/-- `store.generate(req)` (src/index.js lines 313-321): assign a fresh
identifier, build a fresh Session Entity bound to it, give it a new cookie,
and resolve `secure === 'auto'` against the connection.  The fresh entity
(`new Session(req)`) is modelled from the spec (§4.4 step 2): empty
application data bound to `req.sessionID`. -/
def storeGenerate (cfg : Config) (req : ReqInfo) (genId : String)
    (st : ReqState) : ReqState :=
  let c0 := newCookie cfg.cookie
  let c := if cfg.cookie.secure = JVal.jstr "auto" then
      { c0 with secure := issecure req cfg.proxy }
    else c0
  { st with
    sessionID := JVal.jstr genId
    session := some { id := genId, cookie := c, data := [] } }

/-- `generate()` (src/index.js lines 514-519): `store.generate(req)`, then
record `originalId` and `originalHash` baselines. -/
def generate (digest : String → String) (cfg : Config) (req : ReqInfo)
    (genId : String) (st : ReqState) : ReqState :=
  let st1 := storeGenerate cfg req genId st
  { st1 with
    originalId := st1.sessionID
    originalHash := (st1.session.map (hashSession digest ·)) }

/-- A store record: the serialized view of a session (identifier excluded),
as handed to the `store.get` callback. -/
structure StoredSess where
  cookie : Cookie
  data : List (String × JVal)
deriving Repr, DecidableEq

/-- The JSON-visible fields of a store record, in object key order. -/
def StoredSess.jsonFields (s : StoredSess) : List (String × JVal) :=
  ("cookie", JVal.jstr (toString (repr s.cookie))) :: s.data

/-- `store.createSession(req, sess)`.  Modelled from the spec: the store
file is not under src/; §4.4 step 3 says "inflate a Session Entity from it,
bind the *original* identifier". -/
def createSession (st : ReqState) (s : StoredSess) : ReqState :=
  { st with
    session := some
      { id := strOfJVal st.sessionID, cookie := s.cookie, data := s.data } }

/-- `inflate(req, sess)` (src/index.js lines 522-532): build the live
session from the store record, record baselines, and with `resave` disabled
also record the load-time fingerprint as the saved baseline. -/
def inflate (digest : String → String) (cfg : Config) (st : ReqState)
    (s : StoredSess) : ReqState :=
  let st1 := createSession st s
  let st2 := { st1 with
    originalId := st1.sessionID
    originalHash := some (hashObj digest s.jsonFields) }
  if ¬ cfg.resave then { st2 with savedHash := st2.originalHash } else st2

/-- Refresh a cookie's expiry from its max-age.  Modelled from the spec:
`Session.touch` lives in the missing session file; §4.4 step 5 and the
glossary describe touch as refreshing expiry timestamps only. -/
def Cookie.resetExpires (now : Int) (c : Cookie) : Cookie :=
  match c.maxAge with
  | some m => some (now + m) |> fun e => { c with expires := e }
  | none => c

/-- `req.session.touch()`: refresh the embedded cookie's expiry; touches
only the `cookie` attribute.  Modelled from the spec (see
`Cookie.resetExpires`). -/
def touchSession (now : Int) (sess : Session) : Session :=
  { sess with cookie := sess.cookie.resetExpires now }

/-- The wrapped `save` installed by `wrapmethods` (src/index.js lines
553-557): record `savedHash = hash(this)` and delegate to the entity's own
save, which persists the record under its identifier (`store.set` — the
persistence call itself is modelled from the spec, §2 "knows how to request
its own persistence via a bound store reference"). -/
def sessionSave (digest : String → String) (st : ReqState) :
    ReqState × List Effect :=
  match st.session with
  | none => (st, [])
  | some sess =>
    ({ st with savedHash := some (hashSession digest sess) },
      [Effect.storeSet sess.id])

/-- Touch the active session if this request has not touched it yet
(`if (!touched) { req.session.touch(); touched = true }`,
src/index.js lines 391-395 and 479-483). -/
def touchOnce (req : ReqInfo) (st : ReqState) (sess : Session) :
    ReqState × Session × List Effect :=
  if ¬ st.touched then
    let s1 := touchSession req.now sess
    ({ st with session := some s1, touched := true }, s1,
      [Effect.sessionTouched])
  else (st, sess, [])

/-! ## Response finalization (`res.end` proxy, src/index.js lines 401-511) -/

/-- What a call of the wrapped `res.end` returns: the latched guard's
sentinel `false`, or a normal return value (the result of `writetop()` or of
the underlying end). -/
inductive EndRet where
  | retFalse
  | retOther
deriving Repr, DecidableEq

/-- The outcome of one call of the wrapped `res.end`. -/
structure EndResult where
  ret : EndRet
  ended : Bool
  st : ReqState
  effects : List Effect
deriving Repr, DecidableEq

/-- The underlying writes `writetop()` performs before the store callback
returns: when a chunk was supplied it is (possibly split and) written with
the underlying `res.write`. -/
def writetopEffects (chunk : Bool) : List Effect :=
  if chunk then [Effect.writeUnderlying] else []

/-- The branch taken by the wrapped `res.end` once past its latch
(src/index.js lines 412-510), with the asynchronous store callback sequenced
after the synchronous `writetop()` writes.  `chunk` records whether a body
chunk was passed.  Exactly one finalization path runs: destroy, no-session
pass-through, save, store-touch, or plain underlying end. -/
def resEndBody (digest : String → String) (cfg : Config) (req : ReqInfo)
    (chunk : Bool) (st : ReqState) : ReqState × List Effect :=
  if shouldDestroy cfg st then
    (st, Effect.storeDestroy st.sessionID ::
      (writetopEffects chunk ++ [Effect.endUnderlying]))
  else
    match st.session with
    | none => (st, [Effect.endUnderlying])
    | some sess =>
      let t := touchOnce req st sess
      if shouldSave digest cfg t.1 t.2.1 then
        let sv := sessionSave digest t.1
        (sv.1, t.2.2 ++ sv.2 ++ writetopEffects chunk ++
          [Effect.endUnderlying])
      else if cfg.storeImplementsTouch ∧ shouldTouch digest cfg t.1 t.2.1 then
        (t.1, t.2.2 ++ [Effect.storeTouch t.1.sessionID] ++
          writetopEffects chunk ++ [Effect.endUnderlying])
      else
        (t.1, t.2.2 ++ [Effect.endUnderlying])

/-- One call of the wrapped `res.end`: the latched `ended` guard returns the
sentinel `false` and does nothing when already set; otherwise the latch is
set first (as in the source) and exactly one finalization path runs. -/
def resEnd (digest : String → String) (cfg : Config) (req : ReqInfo)
    (chunk : Bool) (ended : Bool) (st : ReqState) : EndResult :=
  if ended then
    { ret := EndRet.retFalse, ended := ended, st := st, effects := [] }
  else
    let b := resEndBody digest cfg req chunk st
    { ret := EndRet.retOther, ended := true, st := b.1, effects := b.2 }

/-- A sequence of calls of the wrapped `res.end`, threading the latch and
the state and accumulating effects (first call first). -/
def resEndSeq (digest : String → String) (cfg : Config) (req : ReqInfo)
    (chunks : List Bool) (ended : Bool) (st : ReqState) : Bool × ReqState × List Effect :=
  match chunks with
  | [] => (ended, st, [])
  | c :: rest =>
    let r := resEnd digest cfg req c ended st
    let (e2, st2, fx2) := resEndSeq digest cfg req rest r.ended r.st
    (e2, st2, r.effects ++ fx2)

/-! ## Cookie emission (src/index.js lines 188-203 and 374-399) -/

/-- `setcookie(res, name, val, secret, options)` (lines 193-203): sign the
identifier under the given secret, prepend the `s:` scheme tag, and append
the serialized cookie to any existing `Set-Cookie` header entries.  Cookie
attribute serialization is an external collaborator; the model keeps
`name=value`. -/
def setcookie (mac : String → String → String) (name val secret : String)
    (prev : List String) : List String :=
  prev ++ [name ++ "=" ++ ("s:" ++ sign mac val secret)]

/-- The `onHeaders` callback (src/index.js lines 375-399): skip without a
session, or when `shouldSetCookie` is false, or when the cookie demands a
secure transport on an insecure connection; otherwise touch once and append
the cookie signed under `secrets[0]`. -/
def onHeadersCb (digest : String → String) (mac : String → String → String)
    (cfg : Config) (req : ReqInfo) (secrets : List String) (st : ReqState)
    (prevSetCookie : List String) : ReqState × List String :=
  match st.session with
  | none => (st, prevSetCookie)
  | some sess =>
    if ¬ shouldSetCookie digest cfg st sess then (st, prevSetCookie)
    else if sess.cookie.secure ∧ ¬ issecure req cfg.proxy then
      (st, prevSetCookie)
    else
      let st1 := (touchOnce req st sess).1
      (st1,
        setcookie mac cfg.name (strOfJVal st1.sessionID) (secrets.headD "")
          prevSetCookie)

/-! ## Identifier recovery (src/index.js lines 70-127) -/

/-- Name lookup in a parsed cookie bag. -/
def lookupCookie (l : List (String × String)) (name : String) :
    Option String :=
  (l.find? (fun kv => kv.1 = name)).map (fun kv => kv.2)

/-- `getcookie(req, name, secrets)` (lines 70-127): read the signed value
from the parsed `Cookie` header, falling back to the deprecated
`req.signedCookies` and `req.cookies` sources; an invalid signature yields
`undefined`, an unsigned value is ignored. -/
def getcookie (mac : String → String → String) (req : ReqInfo)
    (name : String) (secrets : List String) : Option String :=
  let val1 : Option String :=
    match req.headerCookies with
    | none => none
    | some cookies =>
      match lookupCookie cookies name with
      | none => none
      | some raw =>
        if raw ≠ "" then
          if raw.take 2 = "s:" then
            unsigncookie mac (raw.drop 2) secrets
          else none
        else none
  let val2 : Option String :=
    if ¬ optStrTruthy val1 then
      match req.signedCookies with
      | some sc => lookupCookie sc name
      | none => val1
    else val1
  if ¬ optStrTruthy val2 then
    match req.cookies with
    | some cs =>
      match lookupCookie cs name with
      | some raw =>
        if raw ≠ "" then
          if raw.take 2 = "s:" then
            unsigncookie mac (raw.drop 2) secrets
          else val2
        else val2
      | none => val2
    | none => val2
  else val2

/-! ## Middleware dispatch (src/index.js lines 334-372 and 625-657) -/

/-- How the middleware disposes of a request before any store callback:
pass through (existing session, disconnected store, or path mismatch), fail
with the missing-secret error, generate a new session, or issue an
asynchronous `store.get`. -/
inductive Outcome where
  | passExisting
  | passDisconnected
  | passPath
  | errMissingSecret
  | generatedNew
  | fetch (id : String)
deriving Repr, DecidableEq

/-- The synchronous result of running the middleware on a request. -/
structure StepResult where
  outcome : Outcome
  st : ReqState
  effects : List Effect
deriving Repr, DecidableEq

/-- `secret || [req.secret]` (src/index.js line 361). -/
def requestSecrets (cfg : Config) (req : ReqInfo) : List String :=
  if cfg.secretCfg.truthy then cfg.secretCfg.toList
  else [req.reqSecret.getD ""]

/-- The per-request middleware up to its first suspension point
(src/index.js lines 334-372 and 625-657): the self-awareness guard, the
store-readiness guard, the pathname-mismatch guard, the secret check, then
identifier recovery and either immediate generation (`generatedNew`) or an
asynchronous store fetch.  Response wrapping (`onHeaders` registration and
the `res.end` proxy) is recorded as the `wrapResponse` effect.  The source's
`originalPath.indexOf(cookieOptions.path || '/') !== 0` holds exactly when
the cookie path is not a character prefix of the request path. -/
def middlewareStep (digest : String → String)
    (mac : String → String → String) (cfg : Config) (storeReady : Bool)
    (req : ReqInfo) (genId : String) : StepResult :=
  let st := initialState req
  if st.session.isSome then
    { outcome := Outcome.passExisting, st := st, effects := [] }
  else if ¬ storeReady then
    { outcome := Outcome.passDisconnected, st := st, effects := [] }
  else
    let originalPath := jsOrStr req.pathname "/"
    if ¬ (jsOrStr cfg.cookie.path "/").data.isPrefixOf originalPath.data then
      { outcome := Outcome.passPath, st := st, effects := [] }
    else if ¬ cfg.secretCfg.truthy ∧ ¬ optStrTruthy req.reqSecret then
      { outcome := Outcome.errMissingSecret, st := st, effects := [] }
    else
      let secrets := requestSecrets cfg req
      let cid := getcookie mac req cfg.name secrets
      let st1 := { st with cookieId := optStr cid, sessionID := optStr cid }
      if ¬ st1.sessionID.truthy then
        { outcome := Outcome.generatedNew
          st := generate digest cfg req genId st1
          effects := [Effect.wrapResponse] }
      else
        { outcome := Outcome.fetch (strOfJVal st1.sessionID)
          st := st1
          effects := [Effect.wrapResponse,
            Effect.storeGet (strOfJVal st1.sessionID)] }

/-- The error object handed to the `store.get` callback; the code reads only
its `code` field. -/
structure ErrObj where
  code : JVal
deriving Repr, DecidableEq

/-- How the `store.get` callback disposes of the request: propagate the
error to `next(err)`, or proceed into the handler chain. -/
inductive GetOutcome where
  | nextErr (e : ErrObj)
  | proceeded
deriving Repr, DecidableEq

/-- The `store.get` callback (src/index.js lines 635-657): a store error
whose code is not the tolerated `'ENOENT'` is propagated via `next(err)`;
a tolerated error or an absent record generates a fresh session; found data
is inflated. -/
def getCallback (digest : String → String) (cfg : Config) (req : ReqInfo)
    (genId : String) (st : ReqState) (err : Option ErrObj)
    (sess : Option StoredSess) : GetOutcome × ReqState :=
  match err with
  | some e =>
    if e.code ≠ JVal.jstr "ENOENT" then (GetOutcome.nextErr e, st)
    else (GetOutcome.proceeded, generate digest cfg req genId st)
  | none =>
    match sess with
    | none => (GetOutcome.proceeded, generate digest cfg req genId st)
    | some s => (GetOutcome.proceeded, inflate digest cfg st s)

/-! ## Store readiness tracking (src/index.js lines 325-332) -/

/-- A readiness event emitted by the store. -/
inductive StoreEvent where
  | disconnect
  | connect
deriving Repr, DecidableEq

/-- The `storeReady` flag after a sequence of store events: initially
`true`, set `false` by `disconnect` and `true` by `connect`. -/
def storeReadyAfter (evs : List StoreEvent) : Bool :=
  evs.foldl
    (fun _ e => match e with
      | StoreEvent.disconnect => false
      | StoreEvent.connect => true)
    true

/-! ## The spec's save predicate, verbatim, for the refinement claim C2 -/

/-- Modelled from the spec's words (§4.4 policy predicates), for comparison
with the source's `shouldSave`: "if the incoming identifier differs from the
session's current identifier ⇒ save unless policy says don't save
uninitialized sessions and the session is unmodified; otherwise (identifier
carried over) ⇒ save unless already saved", under the same section's
non-string identifier guard. -/
def specShouldSave (digest : String → String) (cfg : Config) (st : ReqState)
    (sess : Session) : Bool :=
  if ¬ st.sessionID.isString then false
  else if st.cookieId ≠ st.sessionID then
    ¬ (¬ cfg.saveUninitialized ∧ ¬ isModified digest st sess)
  else
    ¬ isSaved digest st sess

/-! ## Concrete fixtures

Closed instances used by the witness and counterexample theorems below. -/

def cookieW : Cookie :=
  { path := "/", expires := none, maxAge := none, secure := false }

def sessW : Session :=
  { id := "i", cookie := cookieW, data := [] }

/-- Concrete digest for witnesses: the identity serialization. -/
def idDigest : String → String := fun s => s

/-- Concrete MAC for witnesses. -/
def macW : String → String → String := fun _ s => "m" ++ s

/-- Concrete cookie options for witnesses: the defaults. -/
def cookieOpts0 : CookieOpts :=
  { path := none, secure := JVal.jundef, expires := none, maxAge := none }

/-- Concrete request for witnesses: a bare request with no cookies. -/
def req0 : ReqInfo :=
  { session := none, pathname := some "/", headerCookies := none,
    signedCookies := none, cookies := none, reqSecret := none,
    connEncrypted := false, reqSecure := false, xForwardedProto := none,
    now := 0 }

/-- Concrete configuration for the C2 counterexample: `saveUninitialized`
enabled, one secret. -/
def cfgC2 : Config :=
  { cookie := cookieOpts0, name := "connect.sid", proxy := none,
    resave := true, rolling := false, saveUninitialized := true,
    unsetDestroy := false, secretCfg := SecretOpt.arr ["k"],
    storeImplementsTouch := false }

/-- The C2 counterexample state: a request without an incoming cookie whose
handler generated a session (`generate`) and then saved it explicitly
through the wrapped `save` (`sessionSave`). -/
def stC2 : ReqState :=
  (sessionSave idDigest (generate idDigest cfgC2 req0 "I1"
    (initialState req0))).1

def setupFails (opts : Opts) : Bool :=
  match setup opts with
  | Except.error _ => true
  | Except.ok _ => false

def cfgC2b : Config := { cfgC2 with resave := false, saveUninitialized := false }

def stA : ReqState := { initialState req0 with sessionID := JVal.jstr "I1" }

def stB : ReqState :=
  { initialState req0 with
    sessionID := JVal.jstr "I1"
    cookieId := JVal.jstr "I1" }

def storedW : StoredSess := { cookie := cookieW, data := [("x", JVal.jnum 1)] }

def stNum : ReqState := { initialState req0 with sessionID := JVal.jnum 5 }

def optsNS : Opts :=
  { cookie := cookieOpts0, genid := JVal.jundef, name := none, key := none,
    proxy := none, resave := some false, rolling := JVal.jundef,
    saveUninitialized := some false, secret := SecretOpt.absent,
    unset := JVal.jundef, storeProvidesTouch := false }

def cfgNS : Config :=
  { cookie := cookieOpts0, name := "connect.sid", proxy := none,
    resave := false, rolling := false, saveUninitialized := false,
    unsetDestroy := false, secretCfg := SecretOpt.absent,
    storeImplementsTouch := false }

def cfgRoll : Config := { cfgC2 with rolling := true }

def stSess : ReqState := { stB with session := some sessW }

def cfgPath : Config :=
  { cfgC2 with cookie := { cookieOpts0 with path := some "/app" } }

/-! ## Theorems -/


theorem touchOnce_storeOp_count (req : ReqInfo) (st : ReqState)
    (sess : Session) :
    ((touchOnce req st sess).2.2).countP (fun e => e.isStoreOp) = 0 := by
  unfold touchOnce
  split <;> rfl

theorem touchOnce_endCall_count (req : ReqInfo) (st : ReqState)
    (sess : Session) :
    ((touchOnce req st sess).2.2).countP (fun e => e.isEndCall) = 0 := by
  unfold touchOnce
  split <;> rfl

theorem sessionSave_storeOp_count (digest : String → String) (st : ReqState) :
    ((sessionSave digest st).2).countP (fun e => e.isStoreOp) ≤ 1 := by
  unfold sessionSave
  split <;> simp [List.countP_cons, Effect.isStoreOp]

theorem sessionSave_endCall_count (digest : String → String) (st : ReqState) :
    ((sessionSave digest st).2).countP (fun e => e.isEndCall) = 0 := by
  unfold sessionSave
  split <;> rfl

theorem writetopEffects_storeOp_count (chunk : Bool) :
    (writetopEffects chunk).countP (fun e => e.isStoreOp) = 0 := by
  unfold writetopEffects
  split <;> rfl

theorem writetopEffects_endCall_count (chunk : Bool) :
    (writetopEffects chunk).countP (fun e => e.isEndCall) = 0 := by
  unfold writetopEffects
  split <;> rfl

theorem resEndBody_storeOp_once (digest : String → String) (cfg : Config)
    (req : ReqInfo) (chunk : Bool) (st : ReqState) :
    ((resEndBody digest cfg req chunk st).2).countP
        (fun e => e.isStoreOp) ≤ 1 := by
  rcases hss : st.session with _ | sess
  all_goals unfold resEndBody
  all_goals simp only [hss]
  all_goals repeat' split
  all_goals simp only [List.countP_append, List.countP_cons, List.countP_nil,
      touchOnce_storeOp_count, writetopEffects_storeOp_count]
  case some.isFalse.isTrue =>
    have hsv := sessionSave_storeOp_count digest (touchOnce req st sess).1
    simp [Effect.isStoreOp] at hsv ⊢
    omega
  all_goals simp [Effect.isStoreOp]

theorem resEndBody_endCall_once (digest : String → String) (cfg : Config)
    (req : ReqInfo) (chunk : Bool) (st : ReqState) :
    ((resEndBody digest cfg req chunk st).2).countP
        (fun e => e.isEndCall) ≤ 1 := by
  rcases hss : st.session with _ | sess
  all_goals unfold resEndBody
  all_goals simp only [hss]
  all_goals repeat' split
  all_goals simp only [List.countP_append, List.countP_cons, List.countP_nil,
      touchOnce_endCall_count, writetopEffects_endCall_count,
      sessionSave_endCall_count]
  all_goals simp [Effect.isEndCall]

theorem resEnd_ended_noop (digest : String → String) (cfg : Config)
    (req : ReqInfo) (chunk : Bool) (st : ReqState) :
    resEnd digest cfg req chunk true st =
      { ret := EndRet.retFalse, ended := true, st := st, effects := [] } :=
  rfl

theorem resEnd_latches (digest : String → String) (cfg : Config)
    (req : ReqInfo) (chunk : Bool) (st : ReqState) :
    (resEnd digest cfg req chunk false st).ended = true :=
  rfl

theorem resEndSeq_ended_noop (digest : String → String) (cfg : Config)
    (req : ReqInfo) (chunks : List Bool) (st : ReqState) :
    resEndSeq digest cfg req chunks true st = (true, st, []) := by
  induction chunks with
  | nil => rfl
  | cons c rest ih => simp [resEndSeq, resEnd_ended_noop, ih]

theorem resEndSeq_first_only (digest : String → String) (cfg : Config)
    (req : ReqInfo) (c : Bool) (rest : List Bool) (st : ReqState) :
    resEndSeq digest cfg req (c :: rest) false st =
      (true, (resEnd digest cfg req c false st).st,
        (resEnd digest cfg req c false st).effects) := by
  simp [resEndSeq, resEnd_latches, resEndSeq_ended_noop]



theorem Session_fields_filter (sess : Session) :
    sess.fields.filter (fun kv => kv.1 ≠ "cookie") =
      sess.data.filter (fun kv => kv.1 ≠ "cookie") := by
  simp [Session.fields]

theorem hashSession_eq_hash_data (digest : String → String) (sess : Session) :
    hashSession digest sess =
      digest (stringifyObj (sess.data.filter (fun kv => kv.1 ≠ "cookie"))) := by
  unfold hashSession hashObj
  rw [Session_fields_filter]

theorem touchOnce_fst_sessionID (req : ReqInfo) (st : ReqState)
    (sess : Session) : (touchOnce req st sess).1.sessionID = st.sessionID := by
  unfold touchOnce
  split <;> rfl

/-- C1: the response-finalization logic runs at most once per request.  A
call of the wrapped `res.end` with the `ended` latch already set is a no-op
returning the sentinel `false`; any first call sets the latch; one call
performs at most one store operation (destroy/save/touch) and at most one
underlying end call; and in any sequence of calls, only the first call
contributes effects. -/
theorem claim_C1 (digest : String → String) (cfg : Config) (req : ReqInfo)
    (chunk : Bool) (st : ReqState) (chunks : List Bool) :
    resEnd digest cfg req chunk true st =
      { ret := EndRet.retFalse, ended := true, st := st, effects := [] } ∧
    (resEnd digest cfg req chunk false st).ended = true ∧
    (resEnd digest cfg req chunk false st).effects.countP
        (fun e => e.isStoreOp) ≤ 1 ∧
    (resEnd digest cfg req chunk false st).effects.countP
        (fun e => e.isEndCall) ≤ 1 ∧
    resEndSeq digest cfg req (chunk :: chunks) false st =
      (true, (resEnd digest cfg req chunk false st).st,
        (resEnd digest cfg req chunk false st).effects) := by
  refine ⟨resEnd_ended_noop digest cfg req chunk st,
    resEnd_latches digest cfg req chunk st, ?_, ?_,
    resEndSeq_first_only digest cfg req chunk chunks st⟩
  · exact resEndBody_storeOp_once digest cfg req chunk st
  · exact resEndBody_endCall_once digest cfg req chunk st

/-- C4: the fingerprint computed by `hash` is insensitive to the session's
top-level `cookie` attribute: two session objects agreeing on all keys other
than `cookie` produce identical hashes for every digest, and replacing only
the Cookie Descriptor of a Session Entity never changes its fingerprint. -/
theorem claim_C4 (digest : String → String) (s1 s2 : List (String × JVal))
    (h : s1.filter (fun kv => kv.1 ≠ "cookie") =
      s2.filter (fun kv => kv.1 ≠ "cookie"))
    (sess : Session) (c : Cookie) :
    hashObj digest s1 = hashObj digest s2 ∧
    hashSession digest { sess with cookie := c } = hashSession digest sess := by
  constructor
  · unfold hashObj
    rw [h]
  · rw [hashSession_eq_hash_data, hashSession_eq_hash_data]

theorem claim_C4_witness :
    ([("cookie", JVal.jstr "a"), ("x", JVal.jnum 1)].filter
        (fun kv => kv.1 ≠ "cookie") =
      [("cookie", JVal.jstr "b"), ("x", JVal.jnum 1)].filter
        (fun kv => kv.1 ≠ "cookie")) ∧
    (hashObj (fun s => s) [("cookie", JVal.jstr "a"), ("x", JVal.jnum 1)] =
      hashObj (fun s => s) [("cookie", JVal.jstr "b"), ("x", JVal.jnum 1)]) :=
  ⟨by decide,
    (claim_C4 (fun s => s) _ _ (by decide) sessW cookieW).1⟩

/-- C2, counterexample: the source's `shouldSave` differs from the spec's
policy predicate.  After a new session is generated (no incoming cookie) and
the handler saves it explicitly through the wrapped `save`, the incoming
identifier differs from the current one and `saveUninitialized` is enabled,
yet `shouldSave` is `false` (the session is already saved) while the spec's
predicate demands `true`. -/
theorem claim_C2_counterexample :
    stC2.session.map (shouldSave idDigest cfgC2 stC2) = some false ∧
    stC2.session.map (specShouldSave idDigest cfgC2 stC2) = some true := by
  decide

/-- C2, amended: for a string session identifier, when the incoming
identifier differs from the current one and save-uninitialized is disabled,
`shouldSave` equals `isModified`; in every other case (identifier carried
over, or save-uninitialized enabled) it equals `¬ isSaved`; in particular,
with `resave = false` a loaded, unmutated session has its load-time
fingerprint recorded as the saved baseline and `shouldSave` is `false`. -/
theorem claim_C2_amended (digest : String → String) (cfg : Config)
    (st st0 : ReqState) (sess : Session) (i : String) (stored : StoredSess) :
    (st.sessionID.isString = true →
      cfg.saveUninitialized = false → st.cookieId ≠ st.sessionID →
      shouldSave digest cfg st sess = isModified digest st sess) ∧
    (st.sessionID.isString = true →
      (cfg.saveUninitialized = true ∨ st.cookieId = st.sessionID) →
      shouldSave digest cfg st sess = ! isSaved digest st sess) ∧
    (cfg.resave = false → st0.sessionID = JVal.jstr i →
      st0.cookieId = JVal.jstr i →
      ((inflate digest cfg st0 stored).session.map
          (shouldSave digest cfg (inflate digest cfg st0 stored))) =
        some false) := by
  refine ⟨?_, ?_, ?_⟩
  · intro hstr hsu hne
    simp [shouldSave, hstr, hsu, hne]
  · intro hstr hor
    rcases hor with hsu | heq
    · simp [shouldSave, hstr, hsu]
    · simp [shouldSave, hstr, heq]
  · intro hres hsid hcid
    simp [inflate, createSession, hres, hsid, hcid, shouldSave, isSaved,
      hashSession, Session.fields, StoredSess.jsonFields, strOfJVal,
      JVal.isString, hashObj]

theorem writetopEffects_mem (chunk : Bool) :
    ∀ a ∈ writetopEffects chunk, a = Effect.writeUnderlying := by
  unfold writetopEffects
  split <;> simp

theorem touchOnce_effects_mem (req : ReqInfo) (st : ReqState)
    (sess : Session) :
    ∀ a ∈ (touchOnce req st sess).2.2, a = Effect.sessionTouched := by
  unfold touchOnce
  split <;> simp

/-- C5: with a non-string `req.sessionID`, `shouldSave`, `shouldTouch` and
`shouldSetCookie` all return `false`, the response finalizer performs no
store write (`set` or `touch`), and the `onHeaders` callback emits no
`Set-Cookie` header. -/
theorem claim_C5 (digest : String → String) (mac : String → String → String)
    (cfg : Config) (req : ReqInfo) (st : ReqState) (sess : Session)
    (secrets prev : List String) (chunk : Bool)
    (hns : st.sessionID.isString = false) :
    shouldSave digest cfg st sess = false ∧
    shouldTouch digest cfg st sess = false ∧
    shouldSetCookie digest cfg st sess = false ∧
    (resEnd digest cfg req chunk false st).effects.countP
        (fun e => e.isStoreWrite) = 0 ∧
    (onHeadersCb digest mac cfg req secrets st prev).2 = prev := by
  have hsave : ∀ s1, shouldSave digest cfg st s1 = false := by
    intro s1
    simp [shouldSave, hns]
  refine ⟨hsave sess, ?_, ?_, ?_, ?_⟩
  · simp [shouldTouch, hns]
  · simp [shouldSetCookie, hns]
  · show ((resEndBody digest cfg req chunk st).2).countP
      (fun e => e.isStoreWrite) = 0
    rcases hss : st.session with _ | sess1
    all_goals unfold resEndBody
    all_goals simp only [hss]
    all_goals repeat' split
    all_goals try simp_all [touchOnce_fst_sessionID, shouldSave, hns,
      shouldTouch]
    all_goals try exact rfl
    all_goals try refine ⟨rfl, ?_⟩
    all_goals try (refine ⟨?_, rfl⟩)
    all_goals intro a ha
    all_goals try (rcases ha with h | rfl)
    all_goals try exact rfl
    all_goals try rw [writetopEffects_mem chunk a h]
    all_goals try rw [touchOnce_effects_mem req st sess1 a ha]
    all_goals rfl
  · rcases hss : st.session with _ | sess1
    · simp [onHeadersCb, hss]
    · simp [onHeadersCb, hss, shouldSetCookie, hns]

/-- C6, amended: an invalid unset-policy value, a non-function id-generator
and an empty secret list — and only these — make the middleware factory
throw at setup time; a missing secret does not throw at setup (the source
only emits a deprecation) and instead surfaces per-request as the
missing-secret error when the request supplies no `req.secret` either. -/
theorem claim_C6_amended (opts : Opts) (digest : String → String)
    (mac : String → String → String) (cfg : Config) (req : ReqInfo)
    (genId : String)
    (hns : cfg.secretCfg.truthy = false)
    (hrs : optStrTruthy req.reqSecret = false)
    (hfresh : req.session = none)
    (hpath : (jsOrStr cfg.cookie.path "/").data.isPrefixOf
      (jsOrStr req.pathname "/").data = true) :
    (setupFails opts = true ↔
      ((opts.genid.truthy = true ∧ opts.genid.isFunction = false) ∨
        (opts.unset.truthy = true ∧ opts.unset ≠ JVal.jstr "destroy" ∧
          opts.unset ≠ JVal.jstr "keep") ∨
        opts.secret = SecretOpt.arr [])) ∧
    (middlewareStep digest mac cfg true req genId).outcome =
      Outcome.errMissingSecret := by
  constructor
  · obtain ⟨oc, og, onm, okey, opx, ors, orl, osu, osec, oun, ost⟩ := opts
    rcases osec with _ | s | (_ | ⟨a, l⟩) <;>
      by_cases h1 : og.truthy = true <;>
      by_cases h2 : og.isFunction = true <;>
      by_cases h3 : oun.truthy = true <;>
      by_cases h4 : oun = JVal.jstr "destroy" <;>
      by_cases h5 : oun = JVal.jstr "keep" <;>
      simp_all [setupFails, setup, JVal.isFunction]
  · unfold middlewareStep
    simp [initialState, hfresh, hpath, hns, hrs]

/-- C7: a `store.get` error whose code is not the tolerated `'ENOENT'` is
propagated via `next(err)` with no session created; a tolerated `'ENOENT'`
error or an absent record discards the supplied identifier and generates a
fresh session whose identifier is the generator's output. -/
theorem claim_C7 (digest : String → String) (cfg : Config) (req : ReqInfo)
    (genId : String) (st : ReqState) (e : ErrObj)
    (sessOpt : Option StoredSess) :
    (e.code ≠ JVal.jstr "ENOENT" →
      getCallback digest cfg req genId st (some e) sessOpt =
        (GetOutcome.nextErr e, st)) ∧
    (e.code = JVal.jstr "ENOENT" →
      getCallback digest cfg req genId st (some e) sessOpt =
        (GetOutcome.proceeded, generate digest cfg req genId st)) ∧
    (getCallback digest cfg req genId st none none =
      (GetOutcome.proceeded, generate digest cfg req genId st)) ∧
    ((generate digest cfg req genId st).sessionID = JVal.jstr genId) ∧
    (((generate digest cfg req genId st).session.map Session.id) =
      some genId) ∧
    (JVal.jstr genId ≠ st.sessionID →
      (generate digest cfg req genId st).sessionID ≠ st.sessionID) := by
  refine ⟨?_, ?_, rfl, rfl, rfl, ?_⟩
  · intro h
    simp only [getCallback]
    rw [if_pos h]
  · intro h
    simp only [getCallback]
    rw [if_neg (by simp [h])]
  · intro h
    exact h

/-- C8: after a `disconnect` event (not yet followed by `connect`) the
`storeReady` flag is `false` and every request passes through with no
effects, no store call and no session, without failing; after a `connect`
event the flag is `true` and the middleware never takes the disconnected
pass-through. -/
theorem claim_C8 (evs evs2 : List StoreEvent) (digest : String → String)
    (mac : String → String → String) (cfg : Config) (req : ReqInfo)
    (genId : String) (hfresh : req.session = none) :
    storeReadyAfter (evs ++ [StoreEvent.disconnect]) = false ∧
    storeReadyAfter (evs2 ++ [StoreEvent.connect]) = true ∧
    middlewareStep digest mac cfg false req genId =
      { outcome := Outcome.passDisconnected, st := initialState req,
        effects := [] } ∧
    (middlewareStep digest mac cfg true req genId).outcome ≠
      Outcome.passDisconnected := by
  refine ⟨?_, ?_, ?_, ?_⟩
  · simp [storeReadyAfter, List.foldl_append]
  · simp [storeReadyAfter, List.foldl_append]
  · unfold middlewareStep
    simp [initialState, hfresh]
  · by_cases h1 : (initialState req).session.isSome = true <;>
      by_cases h2 : (jsOrStr cfg.cookie.path "/").data.isPrefixOf
        (jsOrStr req.pathname "/").data = true <;>
      by_cases h4 : (optStr (getcookie mac req cfg.name
        (requestSecrets cfg req))).truthy = true <;>
      simp [middlewareStep, h1, h2, h4] <;>
      try (split <;> simp)

/-- C10: a request whose original pathname does not start with the
configured cookie path passes through with no effect: no session, no store
call, no response wrapping, `req.session` and `req.sessionID` left
undefined. -/
theorem claim_C10 (digest : String → String)
    (mac : String → String → String) (cfg : Config) (storeReady : Bool)
    (req : ReqInfo) (genId : String)
    (hfresh : req.session = none)
    (hpath : (jsOrStr cfg.cookie.path "/").data.isPrefixOf
      (jsOrStr req.pathname "/").data = false) :
    ((middlewareStep digest mac cfg storeReady req genId).outcome =
        Outcome.passPath ∨
      (middlewareStep digest mac cfg storeReady req genId).outcome =
        Outcome.passDisconnected) ∧
    (storeReady = true →
      (middlewareStep digest mac cfg storeReady req genId).outcome =
        Outcome.passPath) ∧
    (middlewareStep digest mac cfg storeReady req genId).st =
      initialState req ∧
    (middlewareStep digest mac cfg storeReady req genId).effects = [] ∧
    (initialState req).session = none ∧
    (initialState req).sessionID = JVal.jundef := by
  rcases storeReady with _ | _
  · refine ⟨Or.inr ?_, ?_, ?_, ?_, ?_, rfl⟩
    · simp [middlewareStep, initialState, hfresh]
    · intro h
      simp at h
    · simp [middlewareStep, initialState, hfresh]
    · simp [middlewareStep, initialState, hfresh]
    · simp [initialState, hfresh]
  · refine ⟨Or.inl ?_, ?_, ?_, ?_, ?_, rfl⟩
    · simp [middlewareStep, initialState, hfresh, hpath]
    · intro h1
      simp [middlewareStep, initialState, hfresh, hpath]
    · simp [middlewareStep, initialState, hfresh, hpath]
    · simp [middlewareStep, initialState, hfresh, hpath]
    · simp [initialState, hfresh]

/-- C9: every emitted session cookie is signed under the first secret of
the configured list: the appended `Set-Cookie` value is `s:` plus the
identifier signed with `secrets[0]`, and the emission is unchanged by the
secrets after the first. -/
theorem claim_C9 (digest : String → String)
    (mac : String → String → String) (cfg : Config) (req : ReqInfo)
    (st : ReqState) (sess : Session) (prev : List String) (s0 : String)
    (rest rest2 : List String)
    (hsess : st.session = some sess)
    (hssc : shouldSetCookie digest cfg st sess = true)
    (hsec : ¬ (sess.cookie.secure ∧ ¬ issecure req cfg.proxy)) :
    (onHeadersCb digest mac cfg req (s0 :: rest) st prev).2 =
      prev ++ [cfg.name ++ "=" ++
        ("s:" ++ sign mac (strOfJVal st.sessionID) s0)] ∧
    onHeadersCb digest mac cfg req (s0 :: rest2) st prev =
      onHeadersCb digest mac cfg req (s0 :: rest) st prev := by
  have hsec2 : ¬ (sess.cookie.secure = true ∧
      issecure req cfg.proxy = false) := by
    intro hc
    exact hsec ⟨hc.1, by simp [hc.2]⟩
  constructor
  · unfold onHeadersCb
    simp [hsess, hssc, hsec2, setcookie, touchOnce_fst_sessionID]
  · unfold onHeadersCb
    simp [hsess, hssc, hsec2]

theorem dropWhile_until_dot (r : List Char) :
    ∀ (l : List Char), (∀ c ∈ l, c ≠ '.') →
      List.dropWhile (fun c => c ≠ '.') (l ++ '.' :: r) = '.' :: r := by
  intro l
  induction l with
  | nil => intro _; simp [List.dropWhile]
  | cons a l ih =>
    intro h
    have ha : a ≠ '.' := h a (List.mem_cons_self a l)
    have hd : decide (a ≠ '.') = true := by simp [ha]
    simp only [List.cons_append, List.dropWhile, hd]
    exact ih (fun c hc => h c (List.mem_cons_of_mem a hc))

theorem payloadOf_sign (mac : String → String → String) (val secret : String)
    (hm : ∀ c ∈ (mac val secret).data, c ≠ '.') :
    payloadOf (sign mac val secret) = val := by
  unfold payloadOf sign
  rw [String.data_append, String.data_append]
  have hdot : (".").data = ['.'] := rfl
  rw [hdot]
  simp only [List.reverse_append, List.reverse_cons, List.reverse_nil,
    List.nil_append, List.singleton_append]
  rw [dropWhile_until_dot _ _ (fun c hc => hm c (List.mem_reverse.mp hc))]
  simp

theorem unsign_sign (mac : String → String → String) (val secret : String)
    (hm : ∀ c ∈ (mac val secret).data, c ≠ '.') :
    unsign mac (sign mac val secret) secret = some val := by
  unfold unsign
  rw [payloadOf_sign mac val secret hm]
  simp

theorem unsign_eq_payload (mac : String → String → String)
    (input secret r : String) (h : unsign mac input secret = some r) :
    r = payloadOf input := by
  unfold unsign at h
  by_cases hc : sign mac (payloadOf input) secret = input
  · rw [if_pos hc] at h
    exact (Option.some.injEq _ _ ▸ h).symm
  · rw [if_neg hc] at h
    cases h

theorem unsigncookie_all_fail (mac : String → String → String) (val : String) :
    ∀ (secrets : List String), (∀ s ∈ secrets, unsign mac val s = none) →
      unsigncookie mac val secrets = none := by
  intro secrets
  induction secrets with
  | nil => intro _; rfl
  | cons hd tl ih =>
    intro h
    have hhd := h hd (List.mem_cons_self hd tl)
    simp only [unsigncookie, hhd]
    exact ih (fun s hs => h s (List.mem_cons_of_mem hd hs))

theorem unsigncookie_first (mac : String → String → String) (val : String)
    (s id : String) (post : List String) :
    ∀ (pre : List String), (∀ s2 ∈ pre, unsign mac val s2 = none) →
      unsign mac val s = some id →
      unsigncookie mac val (pre ++ s :: post) = some id := by
  intro pre
  induction pre with
  | nil =>
    intro _ hs
    simp only [List.nil_append, unsigncookie, hs]
  | cons hd tl ih =>
    intro h hs
    have hhd := h hd (List.mem_cons_self hd tl)
    simp only [List.cons_append, unsigncookie, hhd]
    exact ih (fun s2 h2 => h s2 (List.mem_cons_of_mem hd h2)) hs

theorem unsigncookie_mem (mac : String → String → String) (val : String)
    (s id : String) (hu : unsign mac val s = some id) :
    ∀ (secrets : List String), s ∈ secrets →
      unsigncookie mac val secrets = some id := by
  intro secrets
  induction secrets with
  | nil => intro h; cases h
  | cons hd tl ih =>
    intro hmem
    cases hr : unsign mac val hd with
    | some r =>
      have h1 : r = payloadOf val := unsign_eq_payload mac val hd r hr
      have h2 : id = payloadOf val := unsign_eq_payload mac val s id hu
      simp only [unsigncookie, hr, h1, h2]
    | none =>
      rcases List.mem_cons.mp hmem with rfl | htl
      · rw [hr] at hu
        cases hu
      · simp only [unsigncookie, hr]
        exact ih htl

/-- C3: `unsigncookie` tries each secret in order: it returns `false`
(`none`) when no secret verifies, returns the first verifying secret's
result otherwise, and a value signed under any member of the secret list —
including a secondary rotation secret — resolves to the original
identifier. -/
theorem claim_C3 (mac : String → String → String) (val : String)
    (secrets pre post : List String) (s id : String) :
    ((∀ s2 ∈ secrets, unsign mac val s2 = none) →
      unsigncookie mac val secrets = none) ∧
    ((∀ s2 ∈ pre, unsign mac val s2 = none) → unsign mac val s = some id →
      unsigncookie mac val (pre ++ s :: post) = some id) ∧
    (s ∈ secrets → (∀ c ∈ (mac id s).data, c ≠ '.') →
      unsigncookie mac (sign mac id s) secrets = some id) := by
  refine ⟨unsigncookie_all_fail mac val secrets,
    unsigncookie_first mac val s id post pre, ?_⟩
  intro hmem hm
  exact unsigncookie_mem mac (sign mac id s) s id (unsign_sign mac id s hm)
    secrets hmem

/-- Witness for C3 at concrete inputs: a cookie signed under the secondary
secret `k2` resolves, and garbage resolves to `none`. -/
theorem claim_C3_witness :
    unsigncookie (fun _ s => "m" ++ s)
        (sign (fun _ s => "m" ++ s) "sid" "k2") ["k1", "k2"] = some "sid" ∧
    unsigncookie (fun _ s => "m" ++ s) "zz" ["k1", "k2"] = none := by
  constructor
  · exact (claim_C3 (fun _ s => "m" ++ s) "x" ["k1", "k2"] [] [] "k2" "sid").2.2
      (by decide) (by decide)
  · exact (claim_C3 (fun _ s => "m" ++ s) "zz" ["k1", "k2"] [] [] "k" "i").1
      (by decide)

theorem claim_C2_witness :
    (shouldSave idDigest cfgC2b stA sessW =
      isModified idDigest stA sessW) ∧
    (shouldSave idDigest cfgC2 stB sessW =
      ! isSaved idDigest stB sessW) ∧
    ((inflate idDigest cfgC2b stB storedW).session.map
        (shouldSave idDigest cfgC2b (inflate idDigest cfgC2b stB storedW))) =
      some false :=
  ⟨(claim_C2_amended idDigest cfgC2b stA stB sessW "I1"
      storedW).1 (by decide) rfl (by decide),
    (claim_C2_amended idDigest cfgC2 stB stA sessW "I1"
      storedW).2.1 (by decide) (Or.inr rfl),
    (claim_C2_amended idDigest cfgC2b stA stB sessW "I1"
      storedW).2.2 rfl rfl rfl⟩

theorem claim_C5_witness :
    shouldSave idDigest cfgC2 stNum sessW = false ∧
    shouldTouch idDigest cfgC2 stNum sessW = false ∧
    shouldSetCookie idDigest cfgC2 stNum sessW = false ∧
    (resEnd idDigest cfgC2 req0 true false stNum).effects.countP
        (fun e => e.isStoreWrite) = 0 ∧
    (onHeadersCb idDigest macW cfgC2 req0 ["k"] stNum []).2 = [] :=
  claim_C5 idDigest macW cfgC2 req0 stNum sessW ["k"] [] true
    (by decide)

theorem claim_C6_counterexample :
    setup optsNS = Except.ok cfgNS ∧
    (middlewareStep idDigest macW cfgNS true req0 "G1").outcome =
      Outcome.errMissingSecret :=
  ⟨rfl, by decide⟩

theorem claim_C6_witness :
    (setupFails optsNS = true ↔
      ((optsNS.genid.truthy = true ∧ optsNS.genid.isFunction = false) ∨
        (optsNS.unset.truthy = true ∧ optsNS.unset ≠ JVal.jstr "destroy" ∧
          optsNS.unset ≠ JVal.jstr "keep") ∨
        optsNS.secret = SecretOpt.arr [])) ∧
    (middlewareStep idDigest macW cfgNS true req0 "G1").outcome =
      Outcome.errMissingSecret :=
  claim_C6_amended optsNS idDigest macW cfgNS req0 "G1" rfl
    rfl rfl (by decide)

theorem claim_C7_witness :
    getCallback idDigest cfgC2 req0 "G2" stB
        (some { code := JVal.jstr "EIO" }) none =
      (GetOutcome.nextErr { code := JVal.jstr "EIO" }, stB) ∧
    getCallback idDigest cfgC2 req0 "G2" stB
        (some { code := JVal.jstr "ENOENT" }) none =
      (GetOutcome.proceeded, generate idDigest cfgC2 req0 "G2" stB) :=
  ⟨(claim_C7 idDigest cfgC2 req0 "G2" stB
      { code := JVal.jstr "EIO" } none).1 (by decide),
    (claim_C7 idDigest cfgC2 req0 "G2" stB
      { code := JVal.jstr "ENOENT" } none).2.1 rfl⟩

theorem claim_C8_witness :
    storeReadyAfter [StoreEvent.connect, StoreEvent.disconnect] = false ∧
    storeReadyAfter [StoreEvent.disconnect, StoreEvent.connect] = true ∧
    middlewareStep idDigest macW cfgC2 false req0 "G1" =
      { outcome := Outcome.passDisconnected, st := initialState req0,
        effects := [] } ∧
    (middlewareStep idDigest macW cfgC2 true req0 "G1").outcome ≠
      Outcome.passDisconnected :=
  claim_C8 [StoreEvent.connect] [StoreEvent.disconnect]
    idDigest macW cfgC2 req0 "G1" rfl

theorem claim_C9_witness :
    (onHeadersCb idDigest macW cfgRoll req0 ["k1", "k2"] stSess []).2 =
      [] ++ [cfgRoll.name ++ "=" ++
        ("s:" ++ sign macW (strOfJVal stSess.sessionID) "k1")] ∧
    onHeadersCb idDigest macW cfgRoll req0 ["k1", "k3"] stSess [] =
      onHeadersCb idDigest macW cfgRoll req0 ["k1", "k2"] stSess [] :=
  claim_C9 idDigest macW cfgRoll req0 stSess sessW [] "k1"
    ["k2"] ["k3"] rfl (by decide) (by decide)

theorem claim_C10_witness :
    ((middlewareStep idDigest macW cfgPath true req0 "G1").outcome =
        Outcome.passPath ∨
      (middlewareStep idDigest macW cfgPath true req0 "G1").outcome =
        Outcome.passDisconnected) ∧
    (true = true →
      (middlewareStep idDigest macW cfgPath true req0 "G1").outcome =
        Outcome.passPath) ∧
    (middlewareStep idDigest macW cfgPath true req0 "G1").st =
      initialState req0 ∧
    (middlewareStep idDigest macW cfgPath true req0 "G1").effects = [] ∧
    (initialState req0).session = none ∧
    (initialState req0).sessionID = JVal.jundef :=
  claim_C10 idDigest macW cfgPath true req0 "G1" rfl
    (by decide)

end XprezzoSession
